import Mathlib

/-!
Verification development for the alert lifecycle engine of
`src/monitoring/advanced-alerting-system.py` (class `AdvancedNotificationManager`):
alert creation, deduplication, suppression, multi-level escalation and
multi-channel notification fan-out.

The embedding is shallow and executable.  Python `datetime` values are modelled
as natural numbers of seconds; a `datetime.time()` time-of-day is the timestamp
modulo 86400 (`datetime.strptime(.., "%H:%M").time()` values have zero seconds,
so the configured window bounds are whole minutes, while an alert's
time-of-day keeps its seconds).  Python dicts are association lists with
unique keys, in insertion order; `dict.get`, `in` and `d[k] = v` are `dictGet`,
`(dictGet ..).isSome` and `dictSet`.  The sqlite persistence layer and the
logger are modelled as write-only audit logs inside the manager state, and the
external notification channels by the set of configured channels
(`configured_channels`, the keys of `self.notification_channels`) together with
the set of channels whose `send` returns normally (`ok_channels`; a channel
outside it raises, which the manager catches per channel).
-/

namespace Saler

/-- Severity levels, from `class AlertSeverity(Enum)`. -/
inductive AlertSeverity where
  | info
  | low
  | medium
  | high
  | critical
  | emergency
deriving DecidableEq, Repr

/-- The `.value` string of an `AlertSeverity` member (used by suppression
rules, which list severity value strings). -/
def severityValue : AlertSeverity → String
  | .info => "info"
  | .low => "low"
  | .medium => "medium"
  | .high => "high"
  | .critical => "critical"
  | .emergency => "emergency"

/-- Notification channels, from `class NotificationChannel(Enum)`. -/
inductive Channel where
  | email
  | slack
  | discord
  | sms
  | telegram
  | whatsapp
  | webhook
  | push
  | in_app
  | slack_bot
deriving DecidableEq, Repr

/-- Escalation actions, from `class EscalationAction(Enum)`. -/
inductive EscalationAction where
  | notify_next_level
  | escalate_manager
  | call_onduty
  | paging_system
  | sms_broadcast
  | auto_resolution
deriving DecidableEq, Repr

/-- Alert statuses, from `class AlertStatus(Enum)`. -/
inductive AlertStatus where
  | new
  | acknowledged
  | in_progress
  | resolved
  | closed
  | escalated
  | suppressed
deriving DecidableEq, Repr

/-- Python-dict lookup (`d.get(k)` / `d[k]`): first entry with the key. -/
def dictGet {κ α : Type} [DecidableEq κ] : List (κ × α) → κ → Option α
  | [], _ => none
  | (k, v) :: t, q => if k = q then some v else dictGet t q

/-- Python-dict assignment `d[k] = v`: replaces the value in place when the
key is present (keeping insertion order), appends otherwise. -/
def dictSet {κ α : Type} [DecidableEq κ] (m : List (κ × α)) (k : κ) (v : α) :
    List (κ × α) :=
  if (dictGet m k).isSome then
    m.map (fun p => (p.1, if p.1 = k then v else p.2))
  else m ++ [(k, v)]

/-- The `Alert` dataclass.  `timestamp` is seconds; `metadata` a string
dict; optional fields are `Option`. -/
structure Alert where
  id : String
  title : String
  message : String
  severity : AlertSeverity
  category : String
  source : String
  timestamp : Nat
  status : AlertStatus
  metadata : List (String × String)
  assigned_to : Option String := none
  acknowledged_by : Option String := none
  acknowledged_at : Option Nat := none
  resolved_by : Option String := none
  resolved_at : Option Nat := none
  escalation_level : Nat := 0
  dedup_key : Option String := none
  tags : List String := []
deriving DecidableEq, Repr

/-- Keys of `EscalationPolicy.time_thresholds`.  The dataclass annotates the
dict as severity-keyed and the built-in policies populate it with severities,
but `schedule_escalation` indexes it with integer levels; a Python dict can
hold either kind of key, so the embedding uses their sum. -/
inductive TKey where
  | sev (s : AlertSeverity)
  | lvl (n : Nat)
deriving DecidableEq, Repr

/-- The `EscalationPolicy` dataclass. -/
structure EscalationPolicy where
  name : String
  severity_levels : List AlertSeverity
  time_thresholds : List (TKey × Nat)
  notification_channels : List (Nat × List Channel)
  escalation_rules : List (Nat × EscalationAction)
  max_escalation_level : Nat := 5
  auto_resolve_after : Option Nat := none
deriving DecidableEq, Repr

/-- One suppression-rule config dict.  A field is `none` when the key is
absent from the dict.  `start_time`/`end_time` are seconds-of-day parsed from
`"%H:%M"` strings (so whole minutes); absent keys default to `"00:00"` and
`"23:59"` in the code, i.e. `0` and `86340`. -/
structure SuppressionRule where
  start_time : Option Nat := none
  end_time : Option Nat := none
  time_based : Option Bool := none
  categories : Option (List String) := none
  sources : Option (List String) := none
  severities : Option (List String) := none
deriving DecidableEq, Repr

/-- Whether one suppression rule matches an alert:
the body of the `for` loop of `is_suppressed`, which `continue`s (fails the
rule) at the first clause that does not pass.  The time window is checked when
`rule_config.get('time_based', True)` is truthy, i.e. unless the rule carries
an explicit falsy `time_based`; the window bounds default to `00:00`/`23:59`.
The category/source/severity clauses run only when their key is present. -/
def ruleMatches (rule : SuppressionRule) (a : Alert) : Bool :=
  let ct := a.timestamp % 86400
  let st := rule.start_time.getD 0
  let et := rule.end_time.getD 86340
  (!(rule.time_based.getD true) || (decide (st ≤ ct) && decide (ct ≤ et))) &&
  (match rule.categories with
   | none => true
   | some cs => cs.contains a.category) &&
  (match rule.sources with
   | none => true
   | some ss => ss.contains a.source) &&
  (match rule.severities with
   | none => true
   | some vs => vs.contains (severityValue a.severity))

/-- `is_suppressed`: returns `True` at the first configured rule all of whose
present clauses pass, `False` when no rule matches. -/
def is_suppressed (rules : List (String × SuppressionRule)) (a : Alert) : Bool :=
  rules.any (fun r => ruleMatches r.2 a)

/-- `is_duplicate`: `False` when `alert.dedup_key` is falsy (absent or the
empty string); otherwise `True` iff some alert of `active_alerts` has the same
dedup key and status in `[NEW, ACKNOWLEDGED, IN_PROGRESS]`. -/
def is_duplicate (active : List Alert) (a : Alert) : Bool :=
  match a.dedup_key with
  | none => false
  | some k =>
    if k = "" then false
    else active.any (fun e =>
      e.dedup_key == some k &&
      (e.status == .new || e.status == .acknowledged || e.status == .in_progress))

/-- `get_escalation_policy`: the first configured policy whose
`severity_levels` contains the severity (dict values in insertion order). -/
def get_escalation_policy (policies : List EscalationPolicy)
    (severity : AlertSeverity) : Option EscalationPolicy :=
  policies.find? (fun p => p.severity_levels.contains severity)

/-- One row of the `notifications` table written by `save_notification`. -/
structure NotificationRecord where
  alert_id : String
  channel : Channel
  status : String
  error_message : Option String := none
deriving DecidableEq, Repr

/-- One call of a channel's `send` method (argument `is_escalation` and
whether the call returned normally); `ok = false` means `send` raised and the
manager took the `except` branch for this channel. -/
structure SendAttempt where
  alert_id : String
  channel : Channel
  is_escalation : Bool
  ok : Bool
deriving DecidableEq, Repr

/-- The mutable state owned by an `AdvancedNotificationManager`, together
with its externally observable effects.  `active_alerts` is the id-keyed
dict; `saved_alerts` / `saved_notifications` record every `save_alert` /
`save_notification` call (the sqlite tables as append logs);
`send_log` records every channel `send` call; `action_log` every
`execute_escalation_action` dispatch (every action body is a logging stub);
`alert_queue` is `self.alert_queue`; `configured_channels` the keys of
`self.notification_channels`; `ok_channels` the channels whose `send`
returns instead of raising. -/
structure ManagerState where
  active_alerts : List (String × Alert)
  suppression_rules : List (String × SuppressionRule)
  escalation_policies : List EscalationPolicy
  configured_channels : List Channel
  ok_channels : List Channel
  saved_alerts : List Alert
  saved_notifications : List NotificationRecord
  send_log : List SendAttempt
  action_log : List (String × EscalationAction)
  alert_queue : List Alert
deriving DecidableEq, Repr

/-- The `Alert(...)` constructed at the top of `create_alert`: status `NEW`,
escalation level `0`, empty suppression-rule list, fresh id and the caller's
fields (`metadata or {}` and `tags or []` are the caller-side defaults). -/
def mkAlert (alert_id : String) (now : Nat) (title message : String)
    (severity : AlertSeverity) (category source : String)
    (metadata : List (String × String)) (dedup_key : Option String)
    (tags : List String) : Alert :=
  { id := alert_id
    title := title
    message := message
    severity := severity
    category := category
    source := source
    timestamp := now
    status := .new
    metadata := metadata
    escalation_level := 0
    dedup_key := dedup_key
    tags := tags }

/-- What `create_alert` leaves behind: the returned id, the final state of the
local `alert` object (on suppression its status was mutated before the object
is dropped), and the manager state. -/
structure CreateResult where
  returned_id : String
  final_alert : Alert
  state : ManagerState
deriving DecidableEq, Repr

/-- `create_alert`: builds the alert, short-circuits on suppression (status
set to `SUPPRESSED`, object dropped) and then on duplication (object
dropped), else stores it in `active_alerts`, persists it and enqueues it.
The fresh `uuid4` id and `datetime.now()` are inputs of the embedding. -/
def create_alert (s : ManagerState) (alert_id : String) (now : Nat)
    (title message : String) (severity : AlertSeverity)
    (category source : String) (metadata : List (String × String))
    (dedup_key : Option String) (tags : List String) : CreateResult :=
  let alert := mkAlert alert_id now title message severity category source
    metadata dedup_key tags
  if is_suppressed s.suppression_rules alert then
    ⟨alert_id, { alert with status := .suppressed }, s⟩
  else if is_duplicate (s.active_alerts.map Prod.snd) alert then
    ⟨alert_id, alert, s⟩
  else
    ⟨alert_id, alert,
      { s with
        active_alerts := s.active_alerts ++ [(alert_id, alert)]
        saved_alerts := s.saved_alerts ++ [alert]
        alert_queue := s.alert_queue ++ [alert] }⟩

/-- `acknowledge_alert`: `False` when the id is not in `active_alerts`;
otherwise sets status `ACKNOWLEDGED` (unconditionally), records actor and
timestamp, persists, and returns `True`. -/
def acknowledge_alert (s : ManagerState) (now : Nat)
    (alert_id acknowledged_by : String) : Bool × ManagerState :=
  match dictGet s.active_alerts alert_id with
  | none => (false, s)
  | some a =>
    let a2 := { a with
      status := .acknowledged
      acknowledged_by := some acknowledged_by
      acknowledged_at := some now }
    (true, { s with
      active_alerts := dictSet s.active_alerts alert_id a2
      saved_alerts := s.saved_alerts ++ [a2] })

/-- `resolve_alert`: `False` when the id is not in `active_alerts`; otherwise
sets status `RESOLVED`, records actor and timestamp, stores truthy notes
under `metadata['resolution_notes']` (`if notes:` skips `None` and the empty
string), persists, and returns `True`. -/
def resolve_alert (s : ManagerState) (now : Nat)
    (alert_id resolved_by : String) (notes : Option String) :
    Bool × ManagerState :=
  match dictGet s.active_alerts alert_id with
  | none => (false, s)
  | some a =>
    let md := match notes with
      | some n => if n = "" then a.metadata
                  else dictSet a.metadata "resolution_notes" n
      | none => a.metadata
    let a2 := { a with
      status := .resolved
      resolved_by := some resolved_by
      resolved_at := some now
      metadata := md }
    (true, { s with
      active_alerts := dictSet s.active_alerts alert_id a2
      saved_alerts := s.saved_alerts ++ [a2] })

/-- `send_initial_notifications`: level-0 fan-out.  No policy for the
severity means no action.  The loop tries every channel of the level-0 list
that is configured; `send` is called for each, and each call is followed by a
`save_notification` row: `"sent"` on success, `"failed"` with the error text
on exception (the `except` branch, which then continues with the next
channel).  The loop only appends to the two logs, so it is rendered as the
appends it performs, in loop order. -/
def send_initial_notifications (s : ManagerState) (a : Alert) : ManagerState :=
  match get_escalation_policy s.escalation_policies a.severity with
  | none => s
  | some policy =>
    let chans := (dictGet policy.notification_channels 0).getD []
    let tried := chans.filter (fun ch => s.configured_channels.contains ch)
    { s with
      send_log := s.send_log ++ tried.map (fun ch =>
        ⟨a.id, ch, false, s.ok_channels.contains ch⟩)
      saved_notifications := s.saved_notifications ++ tried.map (fun ch =>
        if s.ok_channels.contains ch then ⟨a.id, ch, "sent", none⟩
        else ⟨a.id, ch, "failed", some "send error"⟩) }

/-- One armed `threading.Timer` of `schedule_escalation`: the absolute time
`alert.timestamp + time_thresholds[level]` at which it fires, and the level
its callback passes to `escalate_alert`. -/
structure EscalationTimer where
  fire_at : Nat
  level : Nat
deriving DecidableEq, Repr

/-- `schedule_escalation`: for each `level in range(1, max_escalation_level
+ 1)` with `level in policy.time_thresholds` (an integer key, `TKey.lvl`), a
timer is armed at `alert.timestamp + time_thresholds[level]` whose callback
is `escalate_alert(alert, level)`.  No policy, no timers. -/
def schedule_escalation (policies : List EscalationPolicy) (a : Alert) :
    List EscalationTimer :=
  match get_escalation_policy policies a.severity with
  | none => []
  | some policy =>
    (List.range' 1 policy.max_escalation_level).filterMap (fun level =>
      match dictGet policy.time_thresholds (TKey.lvl level) with
      | some secs => some ⟨a.timestamp + secs, level⟩
      | none => none)

/-- `escalate_alert`: no-op when the alert is `RESOLVED`/`CLOSED`, when no
policy matches its severity, or when the level is not a key of the policy's
`notification_channels`.  Otherwise sets `escalation_level = level` and
status `ESCALATED` on the shared alert object, tries every configured channel
of the level (a raising `send` is caught and only logged — no
`save_notification` row on the `except` path here, unlike the initial
fan-out; a returning `send` is followed by an `"escalated"` row), and
dispatches the level's escalation action if one is configured (each action
body is a logging stub, recorded in `action_log`).  `save_alert` is never
called here. -/
def escalate_alert (s : ManagerState) (a : Alert) (level : Nat) :
    ManagerState :=
  if a.status = .resolved ∨ a.status = .closed then s
  else
    match get_escalation_policy s.escalation_policies a.severity with
    | none => s
    | some policy =>
      match dictGet policy.notification_channels level with
      | none => s
      | some chans =>
        let a2 := { a with escalation_level := level, status := .escalated }
        let tried := chans.filter (fun ch =>
          s.configured_channels.contains ch)
        let s2 := { s with
          active_alerts := dictSet s.active_alerts a.id a2
          send_log := s.send_log ++ tried.map (fun ch =>
            ⟨a.id, ch, true, s.ok_channels.contains ch⟩)
          saved_notifications := s.saved_notifications ++
            (tried.filter (fun ch => s.ok_channels.contains ch)).map
              (fun ch => ⟨a.id, ch, "escalated", none⟩) }
        match dictGet policy.escalation_rules level with
        | some act => { s2 with action_log := s2.action_log ++ [(a.id, act)] }
        | none => s2

/-- A scheduled timer firing on an alert that was stored in `active_alerts`:
the callback closure holds a reference to the very object the dict holds, so
it reads that object's current state. -/
def fire_timer (s : ManagerState) (alert_id : String) (level : Nat) :
    ManagerState :=
  match dictGet s.active_alerts alert_id with
  | some a => escalate_alert s a level
  | none => s

/-- `process_alert` on a dequeued alert: initial fan-out then escalation
scheduling (returned as the list of armed timers). -/
def process_alert (s : ManagerState) (a : Alert) :
    ManagerState × List EscalationTimer :=
  (send_initial_notifications s a, schedule_escalation s.escalation_policies a)

/-! Helper lemmas on the dict model. -/

theorem dictGet_append_self {κ α : Type} [DecidableEq κ]
    (m : List (κ × α)) (k : κ) (v : α) (h : dictGet m k = none) :
    dictGet (m ++ [(k, v)]) k = some v := by
  induction m with
  | nil => simp [dictGet]
  | cons p t ih =>
    obtain ⟨k', v'⟩ := p
    by_cases hk : k' = k
    · simp [dictGet, hk] at h
    · simp only [dictGet, hk, if_false, List.cons_append] at h ⊢
      simpa using ih h

theorem dictGet_map_set {κ α : Type} [DecidableEq κ]
    (m : List (κ × α)) (k : κ) (v : α) (h : (dictGet m k).isSome) :
    dictGet (m.map (fun p => (p.1, if p.1 = k then v else p.2))) k
      = some v := by
  induction m with
  | nil => simp [dictGet] at h
  | cons p t ih =>
    obtain ⟨k', v'⟩ := p
    rw [List.map_cons]
    by_cases hk : k' = k
    · subst hk
      simp [dictGet]
    · simp only [dictGet, hk, if_false] at h
      have hrec := ih h
      simp [dictGet, hk, hrec]

/-- Looking up a key right after `d[k] = v` yields `v`. -/
theorem dictGet_dictSet_self {κ α : Type} [DecidableEq κ]
    (m : List (κ × α)) (k : κ) (v : α) :
    dictGet (dictSet m k v) k = some v := by
  unfold dictSet
  by_cases h : (dictGet m k).isSome
  · rw [if_pos h]
    exact dictGet_map_set m k v h
  · rw [if_neg h]
    rw [Option.not_isSome_iff_eq_none] at h
    exact dictGet_append_self m k v h

/-! Claim C1: deduplication predicate. -/

/-- An active alert in status `escalated` sharing the dedup key: the code
judges the incoming alert NOT a duplicate (its status check lists only
`NEW`, `ACKNOWLEDGED`, `IN_PROGRESS`). -/
def cexEscalatedActive : Alert :=
  { mkAlert "e1" 0 "t" "m" .high "cat" "src" [] (some "k") [] with
      status := .escalated }

/-- An incoming alert with the same non-null dedup key `"k"`. -/
def cexIncomingDup : Alert :=
  mkAlert "a2" 10 "t2" "m2" .high "cat" "src" [] (some "k") []

/-- C1 counterexample: with one active alert in status `escalated` holding
dedup key `"k"`, an incoming alert with dedup key `"k"` is not judged a
duplicate — `is_duplicate` returns `false` where the claim requires `true`
(escalated is not in the code's status set). -/
theorem c1_counterexample_escalated_key_not_duplicate :
    cexEscalatedActive.status = .escalated ∧
    cexEscalatedActive.dedup_key = some "k" ∧
    cexIncomingDup.dedup_key = some "k" ∧
    is_duplicate [cexEscalatedActive] cexIncomingDup = false :=
  ⟨rfl, rfl, rfl, rfl⟩

/-- C1 (amended): `is_duplicate(A)` returns true iff `A.dedup_key` is a
non-null, non-empty string and some alert in the active-alert index with
status in `{new, acknowledged, in_progress}` carries the same dedup key; an
active alert in status `escalated` does not make `A` a duplicate, and an
alert with a null (or empty) dedup key is never a duplicate. -/
theorem c1_is_duplicate_iff (active : List Alert) (a : Alert) :
    is_duplicate active a = true ↔
      ∃ k, a.dedup_key = some k ∧ k ≠ "" ∧
        ∃ e ∈ active, e.dedup_key = some k ∧
          (e.status = .new ∨ e.status = .acknowledged ∨
           e.status = .in_progress) := by
  cases hdk : a.dedup_key with
  | none => simp [is_duplicate, hdk]
  | some k =>
    by_cases hk : k = ""
    · subst hk
      simp [is_duplicate, hdk]
    · simp [is_duplicate, hdk, hk, List.any_eq_true, or_assoc]

/-- An active alert in status `new` with dedup key `"k"`. -/
def witActiveNew : Alert :=
  mkAlert "n1" 0 "t" "m" .high "cat" "src" [] (some "k") []

/-- C1 witness: a concrete duplicate judgement obtained through the amended
characterisation. -/
theorem c1_witness :
    is_duplicate [witActiveNew] cexIncomingDup = true :=
  (c1_is_duplicate_iff [witActiveNew] cexIncomingDup).mpr
    ⟨"k", rfl, by decide, witActiveNew, by simp, rfl, Or.inl rfl⟩

/-! Concrete states used to instantiate the claim theorems. -/

/-- A manager state with nothing configured and no alerts. -/
def emptyState : ManagerState :=
  { active_alerts := []
    suppression_rules := []
    escalation_policies := []
    configured_channels := []
    ok_channels := []
    saved_alerts := []
    saved_notifications := []
    send_log := []
    action_log := []
    alert_queue := [] }

/-- An alert already resolved but still sitting in `active_alerts`
(`resolve_alert` never removes entries from the dict). -/
def resolvedAlert : Alert :=
  { mkAlert "a1" 0 "t" "m" .high "cat" "src" [] none [] with
      status := .resolved }

/-- A state holding the resolved alert under its id. -/
def stateWithResolved : ManagerState :=
  { emptyState with active_alerts := [("a1", resolvedAlert)] }

/-- A fresh, still-`new` alert. -/
def openAlert : Alert :=
  mkAlert "b1" 0 "t" "m" .high "cat" "src" [] none []

/-- A state holding the open alert under its id. -/
def stateWithOpen : ManagerState :=
  { emptyState with active_alerts := [("b1", openAlert)] }

/-! Claim C3: terminal statuses are not frozen against acknowledge. -/

/-- C3 counterexample: `acknowledge_alert` on an alert whose status is
`resolved` (and which, as the code leaves it, is still in `active_alerts`)
returns `true` and moves the status back to `acknowledged` — the claim says a
resolved alert's status never changes this way. -/
theorem c3_counterexample_ack_unfreezes_resolved :
    resolvedAlert.status = .resolved ∧
    (acknowledge_alert stateWithResolved 100 "a1" "alice").1 = true ∧
    (dictGet (acknowledge_alert stateWithResolved 100 "a1" "alice").2.active_alerts
        "a1").map Alert.status = some .acknowledged :=
  ⟨rfl, rfl, rfl⟩

/-- C3 (amended): for an alert whose status is `resolved` or `closed`,
`escalate` is a no-op (status and `escalation_level` stay frozen, no state
change at all), and `resolve` keeps the status at `resolved`; but the status
is NOT frozen against `acknowledge`: acknowledging a resolved or closed alert
that is still in the active-alert index sets its status back to
`acknowledged` (leaving `escalation_level` unchanged). -/
theorem c3_terminal_freeze_amended (s : ManagerState) (a : Alert)
    (level : Nat) (h : a.status = .resolved ∨ a.status = .closed) :
    escalate_alert s a level = s ∧
    (∀ alert_id actor now, dictGet s.active_alerts alert_id = some a →
      ∃ a2,
        dictGet (acknowledge_alert s now alert_id actor).2.active_alerts
          alert_id = some a2 ∧
        a2.status = .acknowledged ∧
        a2.escalation_level = a.escalation_level) := by
  constructor
  · simp [escalate_alert, h]
  · intro alert_id actor now hget
    have hset : dictGet (acknowledge_alert s now alert_id actor).2.active_alerts
        alert_id = some { a with
          status := .acknowledged
          acknowledged_by := some actor
          acknowledged_at := some now } := by
      simp only [acknowledge_alert, hget]
      exact dictGet_dictSet_self ..
    exact ⟨_, hset, rfl, rfl⟩

/-- C3 witness: the amended theorem at the concrete resolved alert. -/
theorem c3_witness :
    escalate_alert stateWithResolved resolvedAlert 1 = stateWithResolved ∧
    ∃ a2,
      dictGet (acknowledge_alert stateWithResolved 100 "a1" "alice").2.active_alerts
        "a1" = some a2 ∧
      a2.status = .acknowledged ∧
      a2.escalation_level = resolvedAlert.escalation_level :=
  ⟨(c3_terminal_freeze_amended stateWithResolved resolvedAlert 1 (Or.inl rfl)).1,
   (c3_terminal_freeze_amended stateWithResolved resolvedAlert 1 (Or.inl rfl)).2
     "a1" "alice" 100 rfl⟩

/-! Claim C5: escalate is a no-op on resolved/closed alerts. -/

/-- C5: if `escalate` is invoked for an alert whose status is `resolved` or
`closed`, the state is returned untouched — no channel send, no notification
record, no alert mutation; and after a successful `resolve`, a later-firing
escalation timer for that alert leaves the post-resolve state untouched. -/
theorem c5_escalate_terminal_noop (s s' : ManagerState) (a : Alert)
    (level level' : Nat) (alert_id actor : String) (notes : Option String)
    (now : Nat) (h : a.status = .resolved ∨ a.status = .closed)
    (hres : (resolve_alert s' now alert_id actor notes).1 = true) :
    escalate_alert s a level = s ∧
    fire_timer (resolve_alert s' now alert_id actor notes).2 alert_id level'
      = (resolve_alert s' now alert_id actor notes).2 := by
  constructor
  · simp [escalate_alert, h]
  · match hget : dictGet s'.active_alerts alert_id with
    | none => simp [resolve_alert, hget] at hres
    | some a0 =>
      simp only [resolve_alert, hget]
      rw [fire_timer]
      rw [dictGet_dictSet_self]
      simp [escalate_alert]

/-- C5 witness: a resolved alert's pending timer fires with no effect. -/
theorem c5_witness :
    escalate_alert stateWithResolved resolvedAlert 3 = stateWithResolved ∧
    fire_timer (resolve_alert stateWithOpen 50 "b1" "ops" none).2 "b1" 1
      = (resolve_alert stateWithOpen 50 "b1" "ops" none).2 :=
  c5_escalate_terminal_noop stateWithResolved stateWithOpen resolvedAlert
    3 1 "b1" "ops" none 50 (Or.inl rfl) rfl

/-! Claim C10: escalate with no matching policy or unknown level. -/

/-- A policy for HIGH severity whose `notification_channels` has level 0
only. -/
def levelZeroOnlyPolicy : EscalationPolicy :=
  { name := "p10"
    severity_levels := [.high]
    time_thresholds := []
    notification_channels := [(0, [])]
    escalation_rules := []
    max_escalation_level := 4 }

/-- A state configured with that policy and holding the open alert. -/
def stateWithLevelZeroPolicy : ManagerState :=
  { stateWithOpen with escalation_policies := [levelZeroOnlyPolicy] }

/-- C10: if `escalate` is invoked for an alert whose severity matches no
configured policy, or for a level absent from the matched policy's
`notification_channels`, the whole manager state — the alert's status and
`escalation_level` included — is unchanged: no send, no record, no action. -/
theorem c10_escalate_unmatched_noop (s : ManagerState) (a : Alert)
    (level : Nat)
    (h : get_escalation_policy s.escalation_policies a.severity = none ∨
      ∃ p, get_escalation_policy s.escalation_policies a.severity = some p ∧
        dictGet p.notification_channels level = none) :
    escalate_alert s a level = s := by
  rcases h with h | ⟨p, hp, hlev⟩
  · simp [escalate_alert, h]
  · simp [escalate_alert, hp, hlev]

/-- C10 witness: the theorem at a state with no policies, and at a state
whose matched policy has no entry for the requested level. -/
theorem c10_witness :
    escalate_alert stateWithOpen openAlert 1 = stateWithOpen ∧
    escalate_alert stateWithLevelZeroPolicy openAlert 5
      = stateWithLevelZeroPolicy :=
  ⟨c10_escalate_unmatched_noop stateWithOpen openAlert 1 (Or.inl rfl),
   c10_escalate_unmatched_noop stateWithLevelZeroPolicy openAlert 5
     (Or.inr ⟨levelZeroOnlyPolicy, rfl, rfl⟩)⟩

/-! Claim C8: acknowledge/resolve return values and effects. -/

/-- C8: on an unknown id both `acknowledge_alert` and `resolve_alert` return
`false` with the state — persistence log included — untouched; on a known id
they return `true`, set the status (`acknowledged` resp. `resolved`), record
the actor and the call's timestamp, store non-empty notes under
`metadata['resolution_notes']` (the code's `if notes:` treats `None` and the
empty string alike as no note), and append the updated alert to the
persistence log. -/
theorem c8_ack_resolve_contract (s : ManagerState) (now : Nat)
    (alert_id actor : String) (notes : Option String) :
    (dictGet s.active_alerts alert_id = none →
      acknowledge_alert s now alert_id actor = (false, s) ∧
      resolve_alert s now alert_id actor notes = (false, s)) ∧
    (∀ a, dictGet s.active_alerts alert_id = some a →
      (acknowledge_alert s now alert_id actor).1 = true ∧
      (∃ a2,
        dictGet (acknowledge_alert s now alert_id actor).2.active_alerts
          alert_id = some a2 ∧
        a2.status = .acknowledged ∧
        a2.acknowledged_by = some actor ∧
        a2.acknowledged_at = some now ∧
        (acknowledge_alert s now alert_id actor).2.saved_alerts
          = s.saved_alerts ++ [a2]) ∧
      (resolve_alert s now alert_id actor notes).1 = true ∧
      (∃ a3,
        dictGet (resolve_alert s now alert_id actor notes).2.active_alerts
          alert_id = some a3 ∧
        a3.status = .resolved ∧
        a3.resolved_by = some actor ∧
        a3.resolved_at = some now ∧
        (∀ n, notes = some n → n ≠ "" →
          dictGet a3.metadata "resolution_notes" = some n) ∧
        (resolve_alert s now alert_id actor notes).2.saved_alerts
          = s.saved_alerts ++ [a3])) := by
  constructor
  · intro hnone
    constructor
    · simp [acknowledge_alert, hnone]
    · simp [resolve_alert, hnone]
  · intro a hget
    have hack : dictGet (acknowledge_alert s now alert_id actor).2.active_alerts
        alert_id = some { a with
          status := .acknowledged
          acknowledged_by := some actor
          acknowledged_at := some now } := by
      simp only [acknowledge_alert, hget]
      exact dictGet_dictSet_self ..
    have hresget : dictGet
        (resolve_alert s now alert_id actor notes).2.active_alerts alert_id
        = some { a with
          status := .resolved
          resolved_by := some actor
          resolved_at := some now
          metadata := match notes with
            | some n => if n = "" then a.metadata
                        else dictSet a.metadata "resolution_notes" n
            | none => a.metadata } := by
      simp only [resolve_alert, hget]
      exact dictGet_dictSet_self ..
    refine ⟨?_, ⟨_, hack, rfl, rfl, rfl, ?_⟩, ?_,
      ⟨_, hresget, rfl, rfl, rfl, ?_, ?_⟩⟩
    · simp [acknowledge_alert, hget]
    · simp [acknowledge_alert, hget]
    · simp [resolve_alert, hget]
    · intro n hn hne
      subst hn
      simp only [hne, if_false]
      exact dictGet_dictSet_self ..
    · simp [resolve_alert, hget]

/-- C8 witness: the contract at the concrete open alert, for an unknown id
and for its known id. -/
theorem c8_witness :
    (acknowledge_alert stateWithOpen 7 "zz" "alice" = (false, stateWithOpen) ∧
     resolve_alert stateWithOpen 7 "zz" "alice" (some "done")
       = (false, stateWithOpen)) ∧
    ((acknowledge_alert stateWithOpen 7 "b1" "alice").1 = true ∧
     (resolve_alert stateWithOpen 7 "b1" "alice" (some "done")).1 = true) :=
  ⟨(c8_ack_resolve_contract stateWithOpen 7 "zz" "alice" (some "done")).1 rfl,
   ((c8_ack_resolve_contract stateWithOpen 7 "b1" "alice" (some "done")).2
      openAlert rfl).1,
   (((c8_ack_resolve_contract stateWithOpen 7 "b1" "alice" (some "done")).2
      openAlert rfl).2).2.1⟩

/-! Claim C7: create never fails; suppression and dedup short-circuit. -/

/-- C7: `create_alert` is total and always hands back the generated id.  When
the new alert is suppressed, the local alert object's status is set to
`suppressed` and the manager state is untouched (in particular the alert is
not added to the active-alert index).  When the alert is judged a duplicate,
the state is untouched as well: nothing is indexed, persisted or queued — the
call is a no-op besides the fresh id. -/
theorem c7_create_contract (s : ManagerState) (alert_id : String) (now : Nat)
    (title msg : String) (sev : AlertSeverity) (cat srcName : String)
    (md : List (String × String)) (dk : Option String) (tg : List String) :
    (create_alert s alert_id now title msg sev cat srcName md dk
      tg).returned_id = alert_id ∧
    (is_suppressed s.suppression_rules
        (mkAlert alert_id now title msg sev cat srcName md dk tg) = true →
      (create_alert s alert_id now title msg sev cat srcName md dk
        tg).final_alert.status = .suppressed ∧
      (create_alert s alert_id now title msg sev cat srcName md dk
        tg).state = s) ∧
    (is_suppressed s.suppression_rules
        (mkAlert alert_id now title msg sev cat srcName md dk tg) = false →
      is_duplicate (s.active_alerts.map Prod.snd)
        (mkAlert alert_id now title msg sev cat srcName md dk tg) = true →
      (create_alert s alert_id now title msg sev cat srcName md dk
        tg).state = s) := by
  refine ⟨?_, ?_, ?_⟩
  · rw [create_alert]
    split
    · rfl
    · split <;> rfl
  · intro hsup
    simp [create_alert, hsup]
  · intro hsup hdup
    simp [create_alert, hsup, hdup]

/-- A suppression rule with only a category clause (no `time_based` key). -/
def categoryOnlyRule : SuppressionRule := { categories := some ["noise"] }

/-- A state with that rule configured. -/
def stateWithCategoryRule : ManagerState :=
  { emptyState with suppression_rules := [("r1", categoryOnlyRule)] }

/-- A state holding an active `new` alert with dedup key `"k"`. -/
def stateWithKeyedAlert : ManagerState :=
  { emptyState with active_alerts := [("n1", witActiveNew)] }

/-! Claim C2: escalation scheduling at creation. -/

/-- C2: when `create_alert` accepts an alert (neither suppressed nor a
duplicate), the alert is queued for processing, and processing arms exactly
one escalation timer for every level from 1 up to the policy's
`max_escalation_level` that has a defined time threshold, set to fire at
`creation_timestamp + time_thresholds[level]` and to invoke escalate at that
level; a timer firing at a level with configured channels on the still-open
alert sets status `escalated` with `escalation_level` equal to that level
and fans out to that level's configured channels. -/
theorem c2_escalation_scheduling (s : ManagerState) (alert_id : String)
    (now : Nat) (title msg : String) (sev : AlertSeverity)
    (cat srcName : String) (md : List (String × String)) (dk : Option String)
    (tg : List String) (p : EscalationPolicy)
    (hsup : is_suppressed s.suppression_rules
      (mkAlert alert_id now title msg sev cat srcName md dk tg) = false)
    (hdup : is_duplicate (s.active_alerts.map Prod.snd)
      (mkAlert alert_id now title msg sev cat srcName md dk tg) = false)
    (hp : get_escalation_policy s.escalation_policies sev = some p)
    (hfresh : dictGet s.active_alerts alert_id = none) :
    (create_alert s alert_id now title msg sev cat srcName md dk
        tg).state.alert_queue
      = s.alert_queue ++ [mkAlert alert_id now title msg sev cat srcName md
        dk tg] ∧
    (∀ ft lvl, (⟨ft, lvl⟩ : EscalationTimer) ∈ schedule_escalation
        s.escalation_policies
        (mkAlert alert_id now title msg sev cat srcName md dk tg) ↔
      1 ≤ lvl ∧ lvl ≤ p.max_escalation_level ∧
      ∃ th, dictGet p.time_thresholds (TKey.lvl lvl) = some th ∧
        ft = now + th) ∧
    (∀ lvl chans, dictGet p.notification_channels lvl = some chans →
      ∃ a2,
        dictGet (fire_timer (create_alert s alert_id now title msg sev cat
            srcName md dk tg).state alert_id lvl).active_alerts alert_id
          = some a2 ∧
        a2.status = .escalated ∧
        a2.escalation_level = lvl ∧
        (fire_timer (create_alert s alert_id now title msg sev cat srcName
            md dk tg).state alert_id lvl).send_log
          = s.send_log ++ (chans.filter (fun ch =>
              s.configured_channels.contains ch)).map (fun ch =>
              ⟨alert_id, ch, true, s.ok_channels.contains ch⟩)) := by
  have hcreate : create_alert s alert_id now title msg sev cat srcName md dk
      tg = ⟨alert_id, mkAlert alert_id now title msg sev cat srcName md dk tg,
      { s with
        active_alerts := s.active_alerts ++
          [(alert_id, mkAlert alert_id now title msg sev cat srcName md dk tg)]
        saved_alerts := s.saved_alerts ++
          [mkAlert alert_id now title msg sev cat srcName md dk tg]
        alert_queue := s.alert_queue ++
          [mkAlert alert_id now title msg sev cat srcName md dk tg] }⟩ := by
    simp [create_alert, hsup, hdup]
  refine ⟨by rw [hcreate], ?_, ?_⟩
  · intro ft lvl
    rw [schedule_escalation]
    have hsev : (mkAlert alert_id now title msg sev cat srcName md dk
        tg).severity = sev := rfl
    rw [hsev, hp]
    rw [List.mem_filterMap]
    constructor
    · rintro ⟨level, hlr, hf⟩
      rw [List.mem_range'_1] at hlr
      cases hth : dictGet p.time_thresholds (TKey.lvl level) with
      | none => rw [hth] at hf; cases hf
      | some th =>
        rw [hth] at hf
        obtain ⟨hft, hlvl⟩ := EscalationTimer.mk.injEq .. ▸ Option.some.injEq
          .. ▸ hf
        subst hlvl
        exact ⟨hlr.1, by omega, th, hth, hft.symm⟩
    · rintro ⟨h1, h2, th, hth, hft⟩
      refine ⟨lvl, ?_, ?_⟩
      · rw [List.mem_range'_1]
        omega
      · rw [hth, hft]
        rfl
  · intro lvl chans hchans
    rw [hcreate]
    have hgot : dictGet (s.active_alerts ++ [(alert_id, mkAlert alert_id now
        title msg sev cat srcName md dk tg)]) alert_id
        = some (mkAlert alert_id now title msg sev cat srcName md dk tg) :=
      dictGet_append_self _ _ _ hfresh
    rw [fire_timer]
    simp only [hgot]
    rw [escalate_alert]
    have hstat : ¬((mkAlert alert_id now title msg sev cat srcName md dk
        tg).status = .resolved ∨ (mkAlert alert_id now title msg sev cat
        srcName md dk tg).status = .closed) := by
      simp [mkAlert]
    rw [if_neg hstat]
    have hp2 : get_escalation_policy s.escalation_policies
        (mkAlert alert_id now title msg sev cat srcName md dk tg).severity
        = some p := hp
    simp only [hp2, hchans]
    cases hact : dictGet p.escalation_rules lvl with
    | none =>
      simp only [hact]
      exact ⟨_, dictGet_dictSet_self .., rfl, rfl, rfl⟩
    | some act =>
      simp only [hact]
      exact ⟨_, dictGet_dictSet_self .., rfl, rfl, rfl⟩

/-- The Scenario-2 policy: HIGH severity, `time_thresholds = {1: 300}`,
channels `{0: [email], 1: [slack, email]}`. -/
def scenarioPolicy : EscalationPolicy :=
  { name := "high"
    severity_levels := [.high]
    time_thresholds := [(TKey.lvl 1, 300)]
    notification_channels := [(0, [.email]), (1, [.slack, .email])]
    escalation_rules := []
    max_escalation_level := 1 }

/-- A manager configured with the Scenario-2 policy, email and slack both
available. -/
def scenarioState : ManagerState :=
  { emptyState with
      escalation_policies := [scenarioPolicy]
      configured_channels := [.email, .slack]
      ok_channels := [.email, .slack] }

/-- C2 witness: creating a HIGH alert at t = 0 under the Scenario-2 policy
arms the level-1 timer at t = 300, and its firing escalates the alert to
level 1 with a fan-out to slack and email. -/
theorem c2_witness :
    ((⟨300, 1⟩ : EscalationTimer) ∈ schedule_escalation
      scenarioState.escalation_policies
      (mkAlert "h1" 0 "t" "m" .high "cat" "src" [] none [])) ∧
    ∃ a2,
      dictGet (fire_timer (create_alert scenarioState "h1" 0 "t" "m" .high
          "cat" "src" [] none []).state "h1" 1).active_alerts "h1"
        = some a2 ∧
      a2.status = .escalated ∧
      a2.escalation_level = 1 ∧
      (fire_timer (create_alert scenarioState "h1" 0 "t" "m" .high "cat"
          "src" [] none []).state "h1" 1).send_log
        = scenarioState.send_log ++ (([Channel.slack, .email].filter
            (fun ch => scenarioState.configured_channels.contains ch)).map
            (fun ch =>
              ⟨"h1", ch, true, scenarioState.ok_channels.contains ch⟩)) :=
  ⟨((c2_escalation_scheduling scenarioState "h1" 0 "t" "m" .high "cat" "src"
      [] none [] scenarioPolicy rfl rfl rfl rfl).2.1 300 1).mpr
    ⟨by decide, by decide, 300, rfl, rfl⟩,
   (c2_escalation_scheduling scenarioState "h1" 0 "t" "m" .high "cat" "src"
      [] none [] scenarioPolicy rfl rfl rfl rfl).2.2 1 [.slack, .email] rfl⟩

/-! Claim C4: escalation-level monotonicity. -/

/-- A policy arming level-1 at 600 s and level-2 at 300 s: the armed timers
themselves fire level 2 before level 1. -/
def outOfOrderPolicy : EscalationPolicy :=
  { name := "std"
    severity_levels := [.high]
    time_thresholds := [(TKey.lvl 1, 600), (TKey.lvl 2, 300)]
    notification_channels := [(1, []), (2, [])]
    escalation_rules := []
    max_escalation_level := 2 }

/-- A state with that policy and the open alert. -/
def outOfOrderState : ManagerState :=
  { emptyState with
      active_alerts := [("b1", openAlert)]
      escalation_policies := [outOfOrderPolicy] }

/-- C4 counterexample: under `outOfOrderPolicy` the level-2 timer (300 s)
fires before the level-1 timer (600 s); `escalate_alert` assigns
`escalation_level = level` unconditionally, so the observed sequence of
levels is 0, 2, 1 — it decreases, contradicting the claimed monotonicity
under timers firing in any order. -/
theorem c4_counterexample_level_decreases :
    (dictGet (fire_timer outOfOrderState "b1" 2).active_alerts "b1").map
      Alert.escalation_level = some 2 ∧
    (dictGet (fire_timer (fire_timer outOfOrderState "b1" 2) "b1"
        1).active_alerts "b1").map Alert.escalation_level = some 1 :=
  ⟨rfl, rfl⟩

/-- C4 (amended): a firing escalation timer either leaves the alert's
`escalation_level` unchanged (when the escalation no-ops) or overwrites it
with exactly the timer's own level; consequently the level sequence is
non-decreasing when timers fire in non-decreasing level order, but a
lower-level timer firing after a higher-level one lowers the level. -/
theorem c4_escalation_level_amended (s : ManagerState) (alert_id : String)
    (level : Nat) (a : Alert)
    (hget : dictGet s.active_alerts alert_id = some a)
    (hid : a.id = alert_id) :
    (∀ a2, dictGet (fire_timer s alert_id level).active_alerts alert_id
        = some a2 →
      a2.escalation_level = a.escalation_level ∨
      a2.escalation_level = level) ∧
    (a.escalation_level ≤ level →
      ∀ a2, dictGet (fire_timer s alert_id level).active_alerts alert_id
          = some a2 →
        a.escalation_level ≤ a2.escalation_level) := by
  have key : ∀ a2, dictGet (fire_timer s alert_id level).active_alerts
      alert_id = some a2 →
      a2.escalation_level = a.escalation_level ∨
      a2.escalation_level = level := by
    intro a2 h2
    rw [fire_timer] at h2
    simp only [hget] at h2
    rw [escalate_alert] at h2
    by_cases hterm : a.status = .resolved ∨ a.status = .closed
    · rw [if_pos hterm, hget] at h2
      cases h2
      exact Or.inl rfl
    · rw [if_neg hterm] at h2
      cases hpol : get_escalation_policy s.escalation_policies a.severity with
      | none =>
        simp only [hpol] at h2
        rw [hget] at h2
        cases h2
        exact Or.inl rfl
      | some p =>
        simp only [hpol] at h2
        cases hch : dictGet p.notification_channels level with
        | none =>
          simp only [hch] at h2
          rw [hget] at h2
          cases h2
          exact Or.inl rfl
        | some chans =>
          simp only [hch] at h2
          cases hact : dictGet p.escalation_rules level with
          | none =>
            simp only [hact] at h2
            rw [hid] at h2
            rw [dictGet_dictSet_self] at h2
            cases h2
            exact Or.inr rfl
          | some act =>
            simp only [hact] at h2
            rw [hid] at h2
            rw [dictGet_dictSet_self] at h2
            cases h2
            exact Or.inr rfl
  refine ⟨key, fun hle a2 h2 => ?_⟩
  rcases key a2 h2 with h | h <;> omega

/-- C4 witness: firing the level-1 timer on the fresh alert (level 0) takes
the level to 1 — in particular it does not decrease on an in-order fire. -/
theorem c4_witness :
    ∃ a2, dictGet (fire_timer outOfOrderState "b1" 1).active_alerts "b1"
        = some a2 ∧
      (a2.escalation_level = openAlert.escalation_level ∨
        a2.escalation_level = 1) ∧
      openAlert.escalation_level ≤ a2.escalation_level :=
  ⟨{ openAlert with status := .escalated, escalation_level := 1 }, rfl,
   (c4_escalation_level_amended outOfOrderState "b1" 1 openAlert rfl rfl).1
     _ rfl,
   (c4_escalation_level_amended outOfOrderState "b1" 1 openAlert rfl rfl).2
     (by decide) _ rfl⟩

/-! Claim C9: per-channel failure isolation in the fan-outs. -/

/-- A policy sending to email and slack at level 0 and at level 1. -/
def mixedPolicy : EscalationPolicy :=
  { name := "mix"
    severity_levels := [.high]
    time_thresholds := []
    notification_channels := [(0, [.email, .slack]), (1, [.email, .slack])]
    escalation_rules := []
    max_escalation_level := 1 }

/-- Email and slack both configured, but email's `send` always raises. -/
def failingChannelState : ManagerState :=
  { emptyState with
      active_alerts := [("b1", openAlert)]
      escalation_policies := [mixedPolicy]
      configured_channels := [.email, .slack]
      ok_channels := [.slack] }

/-- C9 counterexample: in the escalation fan-out a raising `send` is caught
and logged but NOT persisted as a notification record — after the level-1
escalation the email attempt appears (failed) in the send log, yet the
notifications table holds only slack's `"escalated"` row and no `"failed"`
row at all, against the claim that a failure is recorded as a failed
notification record in every escalation fan-out. -/
theorem c9_counterexample_escalation_failure_unrecorded :
    (fire_timer failingChannelState "b1" 1).send_log
      = [⟨"b1", .email, true, false⟩, ⟨"b1", .slack, true, true⟩] ∧
    (fire_timer failingChannelState "b1" 1).saved_notifications
      = [⟨"b1", .slack, "escalated", none⟩] :=
  ⟨rfl, rfl⟩

/-- C9 (amended): in both fan-outs a channel's send failure is caught and
does not prevent the other channels of the level from being attempted, and a
succeeding channel always gets a success record persisted even when another
channel fails; the failure itself is persisted as a `"failed"` notification
record in the initial (level-0) fan-out, but in the escalation fan-out it is
only logged — no notification record is written for the failing channel
there.  No failure propagates to the caller (both fan-outs are total
functions of the state). -/
theorem c9_fanout_failure_isolation (s : ManagerState) (a : Alert)
    (p : EscalationPolicy)
    (hp : get_escalation_policy s.escalation_policies a.severity = some p) :
    (∀ chans0 ch, dictGet p.notification_channels 0 = some chans0 →
      ch ∈ chans0 → s.configured_channels.contains ch = true →
      ((⟨a.id, ch, false, s.ok_channels.contains ch⟩ : SendAttempt)
          ∈ (send_initial_notifications s a).send_log) ∧
      (s.ok_channels.contains ch = true →
        (⟨a.id, ch, "sent", none⟩ : NotificationRecord)
          ∈ (send_initial_notifications s a).saved_notifications) ∧
      (s.ok_channels.contains ch = false →
        (⟨a.id, ch, "failed", some "send error"⟩ : NotificationRecord)
          ∈ (send_initial_notifications s a).saved_notifications)) ∧
    (∀ level chans ch, dictGet p.notification_channels level = some chans →
      ¬(a.status = .resolved ∨ a.status = .closed) →
      ch ∈ chans → s.configured_channels.contains ch = true →
      ((⟨a.id, ch, true, s.ok_channels.contains ch⟩ : SendAttempt)
          ∈ (escalate_alert s a level).send_log) ∧
      (s.ok_channels.contains ch = true →
        (⟨a.id, ch, "escalated", none⟩ : NotificationRecord)
          ∈ (escalate_alert s a level).saved_notifications)) := by
  constructor
  · intro chans0 ch hch0 hchm hcfg
    rw [send_initial_notifications]
    simp only [hp, hch0, Option.getD_some]
    have hmem : ch ∈ chans0.filter
        (fun c => s.configured_channels.contains c) :=
      List.mem_filter.mpr ⟨hchm, hcfg⟩
    refine ⟨?_, ?_, ?_⟩
    · exact List.mem_append.mpr (Or.inr (List.mem_map_of_mem _ hmem))
    · intro hok
      refine List.mem_append.mpr (Or.inr (List.mem_map.mpr ⟨ch, hmem, ?_⟩))
      simp [List.elem_iff.mp hok]
    · intro hbad
      refine List.mem_append.mpr (Or.inr (List.mem_map.mpr ⟨ch, hmem, ?_⟩))
      have hnot : ch ∉ s.ok_channels := by
        intro hmm
        have hco : s.ok_channels.contains ch = true := List.elem_iff.mpr hmm
        rw [hco] at hbad
        exact Bool.noConfusion hbad
      simp [hnot]
  · intro level chans ch hchl hterm hchm hcfg
    rw [escalate_alert]
    rw [if_neg hterm]
    simp only [hp, hchl]
    have hmem : ch ∈ chans.filter
        (fun c => s.configured_channels.contains c) :=
      List.mem_filter.mpr ⟨hchm, hcfg⟩
    cases hact : dictGet p.escalation_rules level with
    | none =>
      simp only [hact]
      refine ⟨?_, fun hok => ?_⟩
      · exact List.mem_append.mpr (Or.inr (List.mem_map_of_mem _ hmem))
      · have hmem2 : ch ∈ (chans.filter
            (fun c => s.configured_channels.contains c)).filter
            (fun c => s.ok_channels.contains c) :=
          List.mem_filter.mpr ⟨hmem, hok⟩
        exact List.mem_append.mpr (Or.inr (List.mem_map_of_mem _ hmem2))
    | some act =>
      simp only [hact]
      refine ⟨?_, fun hok => ?_⟩
      · exact List.mem_append.mpr (Or.inr (List.mem_map_of_mem _ hmem))
      · have hmem2 : ch ∈ (chans.filter
            (fun c => s.configured_channels.contains c)).filter
            (fun c => s.ok_channels.contains c) :=
          List.mem_filter.mpr ⟨hmem, hok⟩
        exact List.mem_append.mpr (Or.inr (List.mem_map_of_mem _ hmem2))

/-- C9 witness: with email always raising and slack always succeeding, the
level-0 fan-out still attempts email (recording its failure) and persists a
success record for slack, and the level-1 escalation fan-out persists
slack's `"escalated"` record. -/
theorem c9_witness :
    ((⟨"b1", .email, false, false⟩ : SendAttempt)
        ∈ (send_initial_notifications failingChannelState
            openAlert).send_log) ∧
    ((⟨"b1", .email, "failed", some "send error"⟩ : NotificationRecord)
        ∈ (send_initial_notifications failingChannelState
            openAlert).saved_notifications) ∧
    ((⟨"b1", .slack, "sent", none⟩ : NotificationRecord)
        ∈ (send_initial_notifications failingChannelState
            openAlert).saved_notifications) ∧
    ((⟨"b1", .slack, "escalated", none⟩ : NotificationRecord)
        ∈ (escalate_alert failingChannelState openAlert
            1).saved_notifications) :=
  ⟨((c9_fanout_failure_isolation failingChannelState openAlert mixedPolicy
      rfl).1 [.email, .slack] .email rfl (by decide) (by decide)).1,
   ((c9_fanout_failure_isolation failingChannelState openAlert mixedPolicy
      rfl).1 [.email, .slack] .email rfl (by decide) (by decide)).2.2
     (by decide),
   ((c9_fanout_failure_isolation failingChannelState openAlert mixedPolicy
      rfl).1 [.email, .slack] .slack rfl (by decide) (by decide)).2.1
     (by decide),
   ((c9_fanout_failure_isolation failingChannelState openAlert mixedPolicy
      rfl).2 1 [.email, .slack] .slack rfl (by decide) (by decide)
     (by decide)).2 (by decide)⟩

/-! Claim C6: suppression-rule clause evaluation. -/

/-- Unfolding of one rule's evaluation into its clause conditions: the time
window is checked whenever `time_based` is not an explicit `false` (the code
defaults the flag to `True`), the other clauses only when present. -/
theorem ruleMatches_iff (r : SuppressionRule) (a : Alert) :
    ruleMatches r a = true ↔
      (r.time_based.getD true = true →
        r.start_time.getD 0 ≤ a.timestamp % 86400 ∧
        a.timestamp % 86400 ≤ r.end_time.getD 86340) ∧
      (∀ cs, r.categories = some cs → a.category ∈ cs) ∧
      (∀ ss, r.sources = some ss → a.source ∈ ss) ∧
      (∀ vs, r.severities = some vs → severityValue a.severity ∈ vs) := by
  obtain ⟨st, et, tb, cs, ss, vs⟩ := r
  cases tb with
  | none =>
    cases cs <;> cases ss <;> cases vs <;>
      simp [ruleMatches, List.elem_iff, and_assoc]
  | some b =>
    cases b <;> cases cs <;> cases ss <;> cases vs <;>
      simp [ruleMatches, List.elem_iff, and_assoc]

/-- A suppression rule without the `time_based` key, carrying only a
category clause. -/
def noTimeFlagRule : SuppressionRule := { categories := some ["net"] }

/-- An alert in the matching category created at 23:59:30 (time-of-day
second 86370, past the default `end_time` of 23:59:00). -/
def lateNightAlert : Alert :=
  mkAlert "z1" 86370 "t" "m" .high "net" "src" [] none []

/-- C6 counterexample: a rule that does not declare `time_based` still
applies the time-of-day window check (the code defaults the flag to `True`
and the window to 00:00–23:59): at 23:59:30 the window fails, so the alert
is NOT suppressed although its category clause passes — the claim requires
such a rule to skip the time-window check and suppress it. -/
theorem c6_counterexample_default_time_window :
    noTimeFlagRule.time_based = none ∧
    noTimeFlagRule.categories = some ["net"] ∧
    lateNightAlert.category = "net" ∧
    is_suppressed [("r", noTimeFlagRule)] lateNightAlert = false :=
  ⟨rfl, rfl, rfl, rfl⟩

/-- C6 (amended): `is_suppressed` evaluates the time-of-day window clause
unless the rule explicitly declares `time_based` as false — a rule without
the flag does apply the window check, with the window defaulting to
00:00–23:59; the category, source and severity clauses are evaluated only
if the rule lists them; present clauses are ANDed, rules are ORed, and the
scan returns true at the first rule whose evaluated clauses all pass. -/
theorem c6_is_suppressed_iff (rules : List (String × SuppressionRule))
    (a : Alert) :
    is_suppressed rules a = true ↔
      ∃ r ∈ rules,
        (r.2.time_based.getD true = true →
          r.2.start_time.getD 0 ≤ a.timestamp % 86400 ∧
          a.timestamp % 86400 ≤ r.2.end_time.getD 86340) ∧
        (∀ cs, r.2.categories = some cs → a.category ∈ cs) ∧
        (∀ ss, r.2.sources = some ss → a.source ∈ ss) ∧
        (∀ vs, r.2.severities = some vs → severityValue a.severity ∈ vs) := by
  rw [is_suppressed, List.any_eq_true]
  exact exists_congr fun r =>
    and_congr_right fun _ => ruleMatches_iff r.2 a

/-- C6 witness: a rule with `time_based := false` skips the window check
and suppresses the late-night alert through its category clause alone. -/
theorem c6_witness :
    is_suppressed
      [("r", { noTimeFlagRule with time_based := some false })]
      lateNightAlert = true :=
  (c6_is_suppressed_iff
      [("r", { noTimeFlagRule with time_based := some false })]
      lateNightAlert).mpr
    ⟨("r", { noTimeFlagRule with time_based := some false }), by simp,
      by decide, by decide, by decide, by decide⟩

/-- C7 witness: a concrete suppressed creation (category rule matches at a
time inside the default window) and a concrete deduplicated creation. -/
theorem c7_witness :
    ((create_alert stateWithCategoryRule "x1" 100 "t" "m" .low "noise" "src"
        [] none []).final_alert.status = .suppressed ∧
     (create_alert stateWithCategoryRule "x1" 100 "t" "m" .low "noise" "src"
        [] none []).state = stateWithCategoryRule) ∧
    (create_alert stateWithKeyedAlert "x2" 100 "t" "m" .low "cat" "src"
        [] (some "k") []).state = stateWithKeyedAlert :=
  ⟨(c7_create_contract stateWithCategoryRule "x1" 100 "t" "m" .low "noise"
      "src" [] none []).2.1 (by decide),
   (c7_create_contract stateWithKeyedAlert "x2" 100 "t" "m" .low "cat"
      "src" [] (some "k") []).2.2 (by decide) (by decide)⟩

end Saler
